import Mathlib

/-!
Verification development for the svodMP spreadsheet-import tool.

The Python sources (`processor.py`, `excel_reader.py`, `sheets_client.py`)
are shallowly embedded below: each Lean definition carries the name of the
Python function it translates.  Worksheets are modelled as a bounded grid of
typed cell values plus a list of merge rectangles; the Google-Sheets write
protocol is modelled by the pure payloads (cell ranges and value matrices)
each call sends.  Python exceptions are modelled with `Except PyErr`.

Modelling notes on library calls made by the source:
* `str.lower()` is modelled for ASCII and the Cyrillic block actually used
  by the data (`А`-`Я`, `Ё`); other characters are left unchanged.
* `float(text)` is modelled by the textbook float grammar
  `[sign] (digits [. digits] | . digits) [(e|E) [sign] digits]`; Python
  additionally accepts underscore digit separators and inf/nan spellings,
  which never occur in the ledger domain and are not modelled.
* `datetime.strptime` with the two formats used by the source is modelled by
  the exact regular expressions CPython compiles for them (`%d`: one or two
  digits valued 1..31 excluding `00`; `%m`: one or two digits valued 1..12
  excluding `00`; `%Y`: exactly four digits; `%y`: exactly two digits), plus
  the `datetime` constructor's range validation.
* Dates are converted to and from day counts with the standard civil-from-days
  algorithm; the spreadsheet serial epoch 1899-12-30 is `daysFromCivil 1899 12 30`.
* Numeric cells are modelled as integers (the date serials of the claims);
  `%Y` formatting is modelled as zero-padded to four digits.
-/

namespace SvodMP

/-- Python exceptions raised by the embedded code. -/
inductive PyErr
  | excelRead (msg : String)
  | indexError
  | valueError (msg : String)
  deriving DecidableEq, Repr

/-- A spreadsheet cell value: empty, text, integer number, or a date value. -/
inductive CellValue
  | none
  | str (s : String)
  | num (n : Int)
  | dateVal (y : Int) (m d : Nat)
  deriving DecidableEq, Repr

/-- Python's `Except.isOk`-style check used to state resolution success. -/
def exceptOk {ε α : Type} : Except ε α → Bool
  | .ok _ => true
  | .error _ => false

/- ---------- character and string helpers (Python str methods) ---------- -/

/-- Whitespace characters recognised by Python's `str.strip`/`str.split`. -/
def isPySpace (c : Char) : Bool :=
  c = ' ' ∨ c = '\t' ∨ c = '\n' ∨ c = '\r' ∨ c = '\x0b' ∨ c = '\x0c'

/-- `str.strip()` on a character list. -/
def pyStripL (cs : List Char) : List Char :=
  ((cs.dropWhile isPySpace).reverse.dropWhile isPySpace).reverse

/-- One character of Python `str.lower()`: ASCII plus the Cyrillic block. -/
def lowerRuChar (c : Char) : Char :=
  if 'A' ≤ c ∧ c ≤ 'Z' then Char.ofNat (c.toNat + 32)
  else if 'А' ≤ c ∧ c ≤ 'Я' then Char.ofNat (c.toNat + 32)
  else if c = 'Ё' then 'ё'
  else c

/-- `str.lower()` on a character list. -/
def toLowerRuL (cs : List Char) : List Char := cs.map lowerRuChar

/-- `str.lower()` on a string. -/
def toLowerRu (s : String) : String := ⟨toLowerRuL s.data⟩

/-- Does the list start with the given list (Python `str.startswith`)? -/
def leadsWith : List Char → List Char → Bool
  | _, [] => true
  | [], _ :: _ => false
  | h :: hs, n :: ns => h = n && leadsWith hs ns

/-- Python's `needle in haystack` substring test (`hasSub hay needle`). -/
def hasSub : List Char → List Char → Bool
  | [], needle => needle.isEmpty
  | h :: t, needle => leadsWith (h :: t) needle || hasSub t needle

/-- `str.split()` (split on whitespace runs, dropping empty parts). -/
def splitWsAux : List Char → List Char → List (List Char)
  | [], acc => if acc.isEmpty then [] else [acc.reverse]
  | c :: cs, acc =>
    if isPySpace c then
      if acc.isEmpty then splitWsAux cs [] else acc.reverse :: splitWsAux cs []
    else splitWsAux cs (c :: acc)

/-- `str.split()` on a string, as character lists. -/
def splitWs (cs : List Char) : List (List Char) := splitWsAux cs []

/-- `" ".join(text.split())`: collapse interior whitespace. -/
def collapseWs (cs : List Char) : List Char :=
  (List.intersperse [' '] (splitWs cs)).flatten

/- ---------- decimal formatting helpers ---------- -/

/-- The character of a decimal digit (`0`-`9`). -/
def dchar (n : Nat) : Char := Char.ofNat (48 + n)

/-- Digit value of a character, as read by `int`/`strptime`. -/
def charVal (c : Char) : Nat := c.toNat - 48

/-- Zero-padded two-digit decimal rendering (strftime `%d`, `%m`). -/
def pad2 (n : Nat) : List Char := [dchar (n / 10), dchar (n % 10)]

/-- Zero-padded four-digit decimal rendering (strftime `%Y`). -/
def pad4 (n : Nat) : List Char :=
  [dchar (n / 1000), dchar (n / 100 % 10), dchar (n / 10 % 10), dchar (n % 10)]

/-- `DD.MM.YYYY` rendering used by `strftime("%d.%m.%Y")`. -/
def fmtDMY (d m y : Nat) : String :=
  ⟨pad2 d ++ '.' :: pad2 m ++ '.' :: pad4 y⟩

/-- `str(value)` for the cell values the embedding models. -/
def strOfCell : CellValue → String
  | .none => "None"
  | .str s => s
  | .num n => toString n
  | .dateVal y m d =>
    ⟨pad4 y.toNat ++ '-' :: pad2 m ++ '-' :: pad2 d ++ (" 00:00:00").data⟩

/- ---------- calendar arithmetic ---------- -/

/-- `calendar.isleap`: the Gregorian leap-year rule. -/
def isleap (y : Int) : Bool :=
  y % 4 = 0 && (y % 100 ≠ 0 || y % 400 = 0)

/-- `calendar.monthrange(year, month)[1]`: days in a Gregorian month. -/
def daysInMonth (y : Int) (m : Nat) : Nat :=
  if m = 2 then (if isleap y then 29 else 28)
  else if m = 4 ∨ m = 6 ∨ m = 9 ∨ m = 11 then 30
  else 31

/-- Day count of a civil date from the 1970-01-01 epoch (Hinnant's algorithm). -/
def daysFromCivil (y : Int) (m d : Nat) : Int :=
  let y' : Int := if m ≤ 2 then y - 1 else y
  let era : Int := (if 0 ≤ y' then y' else y' - 399) / 400
  let yoe : Int := y' - era * 400
  let mp : Int := (if m ≤ 2 then (m : Int) + 9 else (m : Int) - 3)
  let doy : Int := (153 * mp + 2) / 5 + (d : Int) - 1
  let doe : Int := yoe * 365 + yoe / 4 - yoe / 100 + doy
  era * 146097 + doe - 719468

/-- Civil date of a day count from the 1970-01-01 epoch (Hinnant's algorithm). -/
def civilFromDays (z : Int) : Int × Nat × Nat :=
  let z' := z + 719468
  let era : Int := (if 0 ≤ z' then z' else z' - 146096) / 146097
  let doe : Int := z' - era * 146097
  let yoe : Int := (doe - doe / 1460 + doe / 36524 - doe / 146096) / 365
  let y : Int := yoe + era * 400
  let doy : Int := doe - (365 * yoe + yoe / 4 - yoe / 100)
  let mp : Int := (5 * doy + 2) / 153
  let d : Int := doy - (153 * mp + 2) / 5 + 1
  let m : Int := if mp < 10 then mp + 3 else mp - 9
  (if m ≤ 2 then y + 1 else y, m.toNat, d.toNat)

/-- The spreadsheet date-serial epoch 1899-12-30, as a civil day count. -/
def serialEpoch : Int := daysFromCivil 1899 12 30

/-- Decidable equality of `Except` values with decidable components. -/
instance exceptDecEq {ε α : Type} [DecidableEq ε] [DecidableEq α] :
    DecidableEq (Except ε α) := fun x y =>
  match x, y with
  | .ok a, .ok b =>
    if h : a = b then .isTrue (by subst h; rfl)
    else .isFalse (fun hc => h (Except.ok.inj hc))
  | .ok _, .error _ => .isFalse (fun hc => Except.noConfusion hc)
  | .error _, .ok _ => .isFalse (fun hc => Except.noConfusion hc)
  | .error a, .error b =>
    if h : a = b then .isTrue (by subst h; rfl)
    else .isFalse (fun hc => h (Except.error.inj hc))

/- ---------- processor.py: periods, date normalization, row preparation ---------- -/

/-- Numeric value of a run of decimal digits. -/
def digitsToNat (cs : List Char) : Nat :=
  cs.foldl (fun a c => a * 10 + charVal c) 0

/-- Python `int(text)`: optional sign, then decimal digits. -/
def pyParseInt (cs : List Char) : Except PyErr Int :=
  let cs1 := pyStripL cs
  let (sgn, cs2) : Int × List Char :=
    match cs1 with
    | [] => (1, [])
    | c :: t => if c = '-' then (-1, t) else if c = '+' then (1, t) else (1, c :: t)
  if cs2.isEmpty || !(cs2.all Char.isDigit) then
    .error (.valueError "invalid literal for int()")
  else .ok (sgn * (digitsToNat cs2 : Int))

/-- The month table of `processor._parse_period`. -/
def MONTH_MAP : List (String × Nat) :=
  [("январь", 1), ("февраль", 2), ("март", 3), ("апрель", 4), ("май", 5),
   ("июнь", 6), ("июль", 7), ("август", 8), ("сентябрь", 9), ("октябрь", 10),
   ("ноябрь", 11), ("декабрь", 12)]

/-- `processor._parse_period`: "Месяц ГГГГ" to (year, month); rejects short
strings and unknown month names (year parsed before the month lookup). -/
def parse_period (period : String) : Except PyErr (Int × Nat) :=
  let parts := splitWs period.data
  if parts.length < 2 then
    .error (.valueError ("Некорректный период: " ++ period))
  else
    let month_name := toLowerRuL (parts.headD [])
    match pyParseInt ((parts.drop 1).headD []) with
    | .error e => .error e
    | .ok year =>
      match MONTH_MAP.find? (fun p => p.1 = (⟨month_name⟩ : String)) with
      | some p => .ok (year, p.2)
      | Option.none => .error (.valueError ("Неизвестный месяц в периоде: " ++ period))

/-- `text.replace(",", ".")` as performed by `processor._is_number`. -/
def commaToDot (cs : List Char) : List Char :=
  cs.map (fun c => if c = ',' then '.' else c)

/-- One or two leading sign characters handling of `float()`/`int()` parsing:
strip an optional sign, reporting it. -/
def signOf (cs : List Char) : Int × List Char :=
  match cs with
  | [] => (1, [])
  | c :: t => if c = '-' then (-1, t) else if c = '+' then (1, t) else (1, c :: t)

/-- The maximal leading run of decimal digits, and the remainder. -/
def digitRun : List Char → List Char × List Char
  | [] => ([], [])
  | c :: cs =>
    if c.isDigit then
      match digitRun cs with
      | (ds, rest) => (c :: ds, rest)
    else ([], c :: cs)

/-- The optional exponent suffix of Python's `float()` grammar: empty, or
`(e|E) [sign] digits` consuming the whole remainder. -/
def expoParse : List Char → Option Int
  | [] => some 0
  | c :: cs =>
    if c = 'e' ∨ c = 'E' then
      let (s, cs1) := signOf cs
      match digitRun cs1 with
      | (ds, rest) =>
        if ds.isEmpty || !rest.isEmpty then Option.none
        else some (s * (digitsToNat ds : Int))
    else Option.none

/-- Floor of `sgn * mant * 10^(e - fracDigits)` (the whole-day part of a
float date serial; `timedelta` date arithmetic floors toward -∞). -/
def floorScaled (sgn : Int) (mant : Nat) (fracDigits : Nat) (e : Int) : Int :=
  let k : Int := e - (fracDigits : Int)
  if 0 ≤ k then sgn * (mant : Int) * (10 : Int) ^ k.toNat
  else Int.fdiv (sgn * (mant : Int)) ((10 : Int) ^ (-k).toNat)

/-- Python `float(text)` on a stripped string: parse by the float grammar
and return the floor of the value (sufficient for date-serial conversion),
`none` when `float()` raises `ValueError`. -/
def pyFloatFloor (cs : List Char) : Option Int :=
  let (sgn, cs1) := signOf cs
  match digitRun cs1 with
  | (ip, r1) =>
    match r1 with
    | c :: t =>
      if c = '.' then
        match digitRun t with
        | (fp, r2) =>
          if ip.isEmpty && fp.isEmpty then Option.none
          else
            match expoParse r2 with
            | some e => some (floorScaled sgn (digitsToNat (ip ++ fp)) fp.length e)
            | Option.none => Option.none
      else
        if ip.isEmpty then Option.none
        else
          match expoParse (c :: t) with
          | some e => some (floorScaled sgn (digitsToNat ip) 0 e)
          | Option.none => Option.none
    | [] =>
      if ip.isEmpty then Option.none
      else some (floorScaled sgn (digitsToNat ip) 0 0)

/-- `processor._is_number`: does `float(value.replace(",", "."))` succeed? -/
def is_number (cs : List Char) : Bool :=
  (pyFloatFloor (commaToDot cs)).isSome

/-- Shared validation of a `strptime` match: all tokens must be digits, the
day/month/year values must satisfy the `%d`/`%m` regex ranges and the
`datetime(year, month, day)` constructor's checks.  For `%y`, CPython maps
00-68 to 2000-2068 and 69-99 to 1969-1999. -/
def strptimeCheck (dds mds yds : List Char) (century : Bool) :
    Option (Nat × Nat × Nat) :=
  if (dds ++ mds ++ yds).all Char.isDigit then
    let dv := digitsToNat dds
    let mv := digitsToNat mds
    let yraw := digitsToNat yds
    let yv := if century then yraw
      else (if yraw ≤ 68 then 2000 + yraw else 1900 + yraw)
    if 1 ≤ dv ∧ 1 ≤ mv ∧ mv ≤ 12 ∧ 1 ≤ yv ∧ yv ≤ 9999 ∧
        dv ≤ daysInMonth (yv : Int) mv then
      some (dv, mv, yv)
    else Option.none
  else Option.none

/-- `datetime.strptime(text, "%d.%m.%Y")`: day and month of one or two
digits, a four-digit year, separated by literal dots, consuming the whole
string. -/
def strptimeDmY4 (cs : List Char) : Option (Nat × Nat × Nat) :=
  match cs with
  | [d1, d2, p1, m1, m2, p2, y1, y2, y3, y4] =>
    if p1 = '.' ∧ p2 = '.' then
      strptimeCheck [d1, d2] [m1, m2] [y1, y2, y3, y4] true
    else Option.none
  | [x0, x1, x2, x3, x4, x5, x6, x7, x8] =>
    if x1 = '.' ∧ x4 = '.' then strptimeCheck [x0] [x2, x3] [x5, x6, x7, x8] true
    else if x2 = '.' ∧ x4 = '.' then
      strptimeCheck [x0, x1] [x3] [x5, x6, x7, x8] true
    else Option.none
  | [x0, x1, x2, x3, x4, x5, x6, x7] =>
    if x1 = '.' ∧ x3 = '.' then strptimeCheck [x0] [x2] [x4, x5, x6, x7] true
    else Option.none
  | _ => Option.none

/-- `datetime.strptime(text, "%d.%m.%y")`: like `strptimeDmY4` with a
two-digit year. -/
def strptimeDmY2 (cs : List Char) : Option (Nat × Nat × Nat) :=
  match cs with
  | [d1, d2, p1, m1, m2, p2, y1, y2] =>
    if p1 = '.' ∧ p2 = '.' then strptimeCheck [d1, d2] [m1, m2] [y1, y2] false
    else Option.none
  | [x0, x1, x2, x3, x4, x5, x6] =>
    if x1 = '.' ∧ x4 = '.' then strptimeCheck [x0] [x2, x3] [x5, x6] false
    else if x2 = '.' ∧ x4 = '.' then strptimeCheck [x0, x1] [x3] [x5, x6] false
    else Option.none
  | [x0, x1, x2, x3, x4, x5] =>
    if x1 = '.' ∧ x3 = '.' then strptimeCheck [x0] [x2] [x4, x5] false
    else Option.none
  | _ => Option.none

/-- `processor._format_date_value`: normalize a date cell to `DD.MM.YYYY`
text — native date values via strftime, numbers as 1899-12-30-epoch serials
(out-of-range serials fall back to `str(value)`), text first as a numeric
serial when `_is_number` accepts it (`float(text)` itself, without the comma
substitution, may still fail, returning the text), then as `DD.MM.YYYY` /
`DD.MM.YY` text, and otherwise unchanged. -/
def format_date_value : CellValue → Option String
  | .none => Option.none
  | .dateVal y m d => some (fmtDMY d m y.toNat)
  | .num n =>
    match civilFromDays (serialEpoch + n) with
    | (cy, cm, cd) =>
      if 1 ≤ cy ∧ cy ≤ 9999 then some (fmtDMY cd cm cy.toNat)
      else some (toString n)
  | .str s =>
    let text := pyStripL s.data
    if text.isEmpty then Option.none
    else if is_number text then
      match pyFloatFloor text with
      | some days =>
        match civilFromDays (serialEpoch + days) with
        | (cy, cm, cd) =>
          if 1 ≤ cy ∧ cy ≤ 9999 then some (fmtDMY cd cm cy.toNat)
          else some ⟨text⟩
      | Option.none => some ⟨text⟩
    else
      match strptimeDmY4 text with
      | some (d, m, y) => some (fmtDMY d m y)
      | Option.none =>
        match strptimeDmY2 text with
        | some (d, m, y) => some (fmtDMY d m y)
        | Option.none => some ⟨text⟩

/-- The assignment `new_row[0] = _format_date_value(new_row[0])`: a `None`
result is stored as an empty cell, text as a text cell. -/
def format_cell (v : CellValue) : CellValue :=
  match format_date_value v with
  | Option.none => CellValue.none
  | some s => CellValue.str s

/-- One iteration of the `_prepare_rows` loop: `new_row = list(row)` then
`new_row[0] = ...`; on an empty row, `new_row[0]` raises `IndexError`. -/
def prepare_one (row : List CellValue) : Except PyErr (List CellValue) :=
  match row with
  | [] => .error .indexError
  | v :: rest => .ok (format_cell v :: rest)

/-- The `_prepare_rows` loop: stop once `days_in_month` rows are kept. -/
def prepare_loop : Nat → List (List CellValue) → Except PyErr (List (List CellValue))
  | _, [] => .ok []
  | 0, _ :: _ => .ok []
  | cap + 1, r :: rs => do
    let r' ← prepare_one r
    let rest ← prepare_loop cap rs
    return r' :: rest

/-- `processor._prepare_rows`: parse the period, then keep at most
`days_in_month` rows, formatting each kept row's date field. -/
def prepare_rows (rows : List (List CellValue)) (period : String) :
    Except PyErr (List (List CellValue)) :=
  match parse_period period with
  | .error e => .error e
  | .ok (y, m) => prepare_loop (daysInMonth y m) rows

/-- The pure per-row effect of `_prepare_rows` on a kept (non-empty) row:
field 0 formatted, the rest unchanged. -/
def prep_row (r : List CellValue) : List CellValue :=
  match r with
  | [] => []
  | v :: rest => format_cell v :: rest

/-- A `DD.MM.YYYY`-shaped string built from eight decimal digits. -/
def ddmmyyyy (a b c d e f g h : Nat) : String :=
  ⟨[dchar a, dchar b, '.', dchar c, dchar d, '.',
    dchar e, dchar f, dchar g, dchar h]⟩

/- ---------- sheets_client.py: the remote ledger write protocol ---------- -/

/-- `sheets_client.SheetInfo`: id and title of one worksheet. -/
structure SheetInfo where
  sheet_id : Int
  title : String
  deriving DecidableEq, Repr

/-- Is a Google cell value non-empty (`cell not in (None, "")`)? -/
def cellFilled : CellValue → Bool
  | .none => false
  | .str "" => false
  | _ => true

/-- `sheets_client.get_last_filled_row` over the fetched `A:H` value rows:
the 1-based index of the last row with any non-empty cell, 0 if none. -/
def get_last_filled_row (values : List (List CellValue)) : Nat :=
  (values.foldl
    (fun (acc : Nat × Nat) row =>
      (if row.any cellFilled then acc.2 else acc.1, acc.2 + 1))
    (0, 1)).1

/-- The candidate filter of `sheets_client.find_mp_sheet`:
`info.title and info.title.lower().strip().startswith("мп")`. -/
def mp_candidate (info : SheetInfo) : Bool :=
  info.title ≠ "" &&
    leadsWith (pyStripL (toLowerRuL info.title.data)) ("мп").data

/-- The `keywords_map` of `sheets_client.find_mp_sheet` with its
`[store_lower]` default. -/
def find_mp_keywords (store_lower : String) : List String :=
  let keywords_map : List (String × List String) :=
    [("цум", ["цум", "советница"]),
     ("диамант", ["диамант", "цитрус"]),
     ("козловская", ["козловская", "санвэй", "санвей"]),
     ("парк хаус", ["парк хаус", "паркхаус"]),
     ("стройград", ["стройград", "строй град"])]
  match keywords_map.find? (fun p => p.1 = store_lower) with
  | some p => p.2
  | Option.none => [store_lower]

/-- Does a worksheet's lowercased title contain one of the store keywords? -/
def title_matches_store (store_lower : String) (info : SheetInfo) : Bool :=
  (find_mp_keywords store_lower).any
    (fun k => hasSub (toLowerRuL info.title.data) k.data)

/-- `sheets_client.find_mp_sheet`: among worksheets whose lowercased,
stripped title starts with `"мп"`, the first whose lowercased title
contains one of the store's keywords. -/
def find_mp_sheet (sheet_infos : List SheetInfo) (store_name : String) :
    Option SheetInfo :=
  let store_lower := toLowerRu store_name
  let candidates := sheet_infos.filter mp_candidate
  candidates.find? (title_matches_store store_lower)

/-- The value row written by `sheets_client.update_summary_row`:
period label, a blank, and six aggregate formulas over the future data range. -/
def update_summary_row_values (period_label : String) (data_start data_end : Nat) :
    List String :=
  [period_label,
   "",
   "=SUM(C" ++ toString data_start ++ ":C" ++ toString data_end ++ ")",
   "=SUM(D" ++ toString data_start ++ ":D" ++ toString data_end ++ ")",
   "=AVERAGE(E" ++ toString data_start ++ ":E" ++ toString data_end ++ ")",
   "=SUM(F" ++ toString data_start ++ ":F" ++ toString data_end ++ ")",
   "=SUM(G" ++ toString data_start ++ ":G" ++ toString data_end ++ ")",
   "=SUM(H" ++ toString data_start ++ ":H" ++ toString data_end ++ ")"]

/-- The A1 range targeted by `sheets_client.update_summary_row`. -/
def update_summary_row_range (sheet_title : String) (summary_row : Nat) : String :=
  "'" ++ sheet_title ++ "'!A" ++ toString summary_row ++ ":H" ++ toString summary_row

/-- The A1 range targeted by `sheets_client.update_values` for the data rows. -/
def update_values_range (sheet_title : String) (start_row : Nat)
    (rows : List (List CellValue)) : String :=
  "'" ++ sheet_title ++ "'!A" ++ toString start_row ++ ":H"
    ++ toString (start_row + rows.length - 1)

/-- The per-row ratio formulas written by `sheets_client.update_formulas`. -/
def update_formulas_values (start_row end_row : Nat) : List (List String) :=
  (List.range' start_row (end_row + 1 - start_row)).map
    (fun row => ["=C" ++ toString row ++ "/D" ++ toString row])

/-- The A1 range targeted by `sheets_client.update_formulas`. -/
def update_formulas_range (sheet_title : String) (start_row end_row : Nat) : String :=
  "'" ++ sheet_title ++ "'!E" ++ toString start_row ++ ":E" ++ toString end_row

/-- The pure content of one ledger insertion: row positions and the payloads
of the three value-writing calls. -/
structure LedgerPlan where
  summary_row : Nat
  data_start : Nat
  data_end : Nat
  summaryRange : String
  summaryValues : List String
  valuesRange : String
  valuesPayload : List (List CellValue)
  formulasRange : String
  formulasValues : List (List String)
  deriving DecidableEq, Repr

/-- The ledger-write slice of `processor.process_directory` (steps after
`find_mp_sheet` succeeds): summary-row position from the last filled row of
`A:H`, the summary formulas over the future data range, the data-row write,
and the per-row ratio formulas. -/
def ledger_plan (colValues : List (List CellValue)) (period : String)
    (rows_to_write : List (List CellValue)) (sheet_title : String) : LedgerPlan :=
  let last_row := get_last_filled_row colValues
  let summary_row := last_row + 1
  let data_start := summary_row + 1
  let data_end := summary_row + rows_to_write.length
  let period_label : String := ⟨(splitWs period.data).headD []⟩
  { summary_row := summary_row
    data_start := data_start
    data_end := data_end
    summaryRange := update_summary_row_range sheet_title summary_row
    summaryValues := update_summary_row_values period_label data_start data_end
    valuesRange := update_values_range sheet_title data_start rows_to_write
    valuesPayload := rows_to_write
    formulasRange := update_formulas_range sheet_title data_start data_end
    formulasValues := update_formulas_values data_start data_end }

/- ---------- excel_reader.py: schema discovery and row extraction ---------- -/

/-- The three required metric columns (`excel_reader.KEYWORDS` keys). -/
inductive MetricKey
  | checks
  | goods
  | gift_cert
  deriving DecidableEq, Repr

/-- `excel_reader.KEYWORDS`: the header keyword of each metric. -/
def KEYWORDS : MetricKey → String
  | .checks => "Чеки"
  | .goods => "Товары"
  | .gift_cert => "Подарочные сертификаты"

/-- `excel_reader.KEYWORD_ALIASES`: alternate header labels per metric. -/
def KEYWORD_ALIASES : MetricKey → List String
  | .goods => ["штуки"]
  | _ => []

/-- `excel_reader.HEADER_ROWS`: the fixed fallback header-row set. -/
def HEADER_ROWS : List Nat := [2, 3, 4, 5]

/-- A merge rectangle of an xlsx worksheet (1-based, inclusive bounds). -/
structure MergeRange where
  minRow : Nat
  maxRow : Nat
  minCol : Nat
  maxCol : Nat
  deriving DecidableEq, Repr

/-- An xlsx worksheet: bounded dimensions, a total cell-value map (`.none`
outside the used range, as `openpyxl` reports), and its merge rectangles. -/
structure Ws where
  maxRow : Nat
  maxCol : Nat
  cellv : Nat → Nat → CellValue
  merges : List MergeRange

/-- `excel_reader._normalize_header_value`: NBSP→space, strip, lower,
collapse whitespace; empty results become `None`. -/
def normalize_header_value : CellValue → Option String
  | .none => Option.none
  | v =>
    let text := collapseWs (toLowerRuL (pyStripL
      ((strOfCell v).data.map (fun c => if c = '\u00A0' then ' ' else c))))
    if text.isEmpty then Option.none else some ⟨text⟩

/-- `excel_reader._is_header_value`: normalized text equals the metric's
keyword or one of its aliases (case-insensitively). -/
def is_header_value (v : CellValue) (k : MetricKey) : Bool :=
  match normalize_header_value v with
  | Option.none => false
  | some t =>
    t = toLowerRu (KEYWORDS k) ||
      (KEYWORD_ALIASES k).any (fun a => t = toLowerRu a)

/-- A word character of the `[^\w]+` regex, on the ASCII/Cyrillic domain. -/
def isWordChar (c : Char) : Bool :=
  c.isAlphanum || c = '_' || (0x400 ≤ c.toNat && c.toNat ≤ 0x4FF)

/-- `excel_reader._normalize_text_for_header`: non-word runs become spaces,
whitespace collapsed. -/
def normalize_text_for_header (cs : List Char) : List Char :=
  collapseWs (cs.map (fun c => if isWordChar c then c else ' '))

/-- `excel_reader._is_date_header`: does the cell's normalized text contain
`"дата"`? -/
def is_date_header (v : CellValue) : Bool :=
  match v with
  | .none => false
  | _ =>
    hasSub (normalize_text_for_header (toLowerRuL (pyStripL (strOfCell v).data)))
      ("дата").data

/-- `excel_reader._find_data_start_row_xlsx`: first column-1 cell holding a
date header marks the row after it as data start; default row 2. Returns
(data start row, date column, weekday column). -/
def find_data_start_row_xlsx (ws : Ws) : Nat × Nat × Nat :=
  match (List.range' 1 ws.maxRow).find? (fun r => is_date_header (ws.cellv r 1)) with
  | some r => (r + 1, 0, 1)
  | Option.none => (2, 0, 1)

/-- `excel_reader._find_checks_header_cell_xlsx`: coordinates of the «Чеки»
header cell — merge top-left cells first, then a row-major full-grid scan. -/
def find_checks_header_cell_xlsx (ws : Ws) : Except PyErr (Nat × Nat) :=
  match ws.merges.find?
      (fun m => is_header_value (ws.cellv m.minRow m.minCol) .checks) with
  | some m => .ok (m.minRow, m.minCol)
  | Option.none =>
    match (List.range' 1 ws.maxRow).findSome? (fun r =>
        ((List.range' 1 ws.maxCol).find?
          (fun c => is_header_value (ws.cellv r c) .checks)).map
            (fun c => (r, c))) with
    | some rc => .ok rc
    | Option.none => .error (.excelRead "Не найдена колонка «Чеки» в заголовке файла.")

/-- `excel_reader._find_header_column_in_merged_xlsx`: the `min_col` of the
first merge anchored at the header row whose top-left cell matches. -/
def find_header_column_in_merged_xlsx (ws : Ws) (k : MetricKey)
    (header_row : Nat) : Option Nat :=
  (ws.merges.find? (fun m =>
    m.minRow == header_row &&
      is_header_value (ws.cellv m.minRow m.minCol) k)).map (·.minCol)

/-- `excel_reader._find_header_column_xlsx`: 0-based metric column from the
fixed header row 3 — merges anchored there first, then the row's cells. -/
def find_header_column_xlsx (ws : Ws) (k : MetricKey) : Except PyErr Nat :=
  let header_row := 3
  match find_header_column_in_merged_xlsx ws k header_row with
  | some c => .ok (c - 1)
  | Option.none =>
    match (List.range' 1 ws.maxCol).find?
        (fun c => is_header_value (ws.cellv header_row c) k) with
    | some c => .ok (c - 1)
    | Option.none =>
      .error (.excelRead ("Не найдена колонка «" ++ KEYWORDS k ++ "» в заголовке файла."))

/-- `excel_reader._get_store_fallback_column`: the static per-store column
table consulted when keyword search fails. -/
def get_store_fallback_column (store : Option String) (k : MetricKey) :
    Except PyErr Nat :=
  if (store = some "Ахтубинск" ∨ store = some "Европа") ∧ k = .checks then .ok 16
  else if store = some "Ахтубинск" ∧ k = .goods then .ok 19
  else if store = some "Ахтубинск" ∧ k = .gift_cert then .ok 38
  else if store = some "Европа" ∧ k = .goods then .ok 19
  else if store = some "Козловская" ∧ k = .checks then .ok 19
  else if store = some "Козловская" ∧ k = .goods then .ok 22
  else .error (.excelRead ("Не найдена колонка «" ++ KEYWORDS k ++ "» в заголовке файла."))

/-- The per-key `try/except` of `excel_reader._find_keyword_columns_xlsx`:
keyword search, else the store fallback table. -/
def resolve_metric_column (ws : Ws) (store : Option String) (k : MetricKey) :
    Except PyErr Nat :=
  match find_header_column_xlsx ws k with
  | .ok c => .ok c
  | .error _ => get_store_fallback_column store k

/-- `excel_reader.ExcelData.column_map` with all three keys resolved. -/
structure ColumnMap where
  checks : Nat
  goods : Nat
  gift_cert : Nat
  deriving DecidableEq, Repr

/-- `excel_reader._find_keyword_columns_xlsx`: resolve the three metric
columns (the final `_validate_column_map` never fires, since each key is
either present or an exception has already propagated). -/
def find_keyword_columns_xlsx (ws : Ws) (_header_rows : List Nat)
    (store : Option String) : Except PyErr ColumnMap := do
  let checks ← resolve_metric_column ws store .checks
  let goods ← resolve_metric_column ws store .goods
  let gift_cert ← resolve_metric_column ws store .gift_cert
  return { checks := checks, goods := goods, gift_cert := gift_cert }

/-- `excel_reader._detect_store_from_path` on the file's stem. -/
def detect_store_from_path (stem : String) : Option String :=
  let lower_name := toLowerRuL stem.data
  if hasSub lower_name ("ахтубинск").data then some "Ахтубинск"
  else if hasSub lower_name ("европа").data then some "Европа"
  else if hasSub lower_name ("санвэй").data || hasSub lower_name ("санвей").data then
    some "Козловская"
  else Option.none

/-- `excel_reader._is_empty_value`: `None` or the empty string. -/
def is_empty_value : CellValue → Bool
  | .none => true
  | .str "" => true
  | _ => false

/-- `excel_reader._row_has_data_xlsx`: any non-empty cell in columns 1-8. -/
def row_has_data_xlsx (ws : Ws) (row : Nat) : Bool :=
  (List.range' 1 8).any (fun c => !(is_empty_value (ws.cellv row c)))

/-- `excel_reader._trim_trailing_empty_rows`: last row (scanning in reverse)
with data; otherwise `rows[0] - 1`, which on an empty row range evaluates
`rows[0]` and raises `IndexError`. -/
def trim_trailing_empty_rows (rows : List Nat) (has_data : Nat → Bool) :
    Except PyErr Nat :=
  match rows.reverse.find? has_data with
  | some r => .ok r
  | Option.none =>
    match rows with
    | [] => .error .indexError
    | r0 :: _ => .ok (r0 - 1)

/-- `excel_reader._find_data_end_row_xlsx` over `range(start_row, max_row+1)`. -/
def find_data_end_row_xlsx (ws : Ws) (start_row : Nat) : Except PyErr Nat :=
  trim_trailing_empty_rows (List.range' start_row (ws.maxRow + 1 - start_row))
    (row_has_data_xlsx ws)

/-- `excel_reader._build_row_xlsx`: the fixed 8-field record drawn from the
date/weekday columns, the resolved metric columns, and fixed columns 3 and 5,
with field 4 statically blank. -/
def build_row_xlsx (ws : Ws) (row : Nat) (column_map : ColumnMap)
    (date_col day_col : Nat) : List CellValue :=
  [ws.cellv row (date_col + 1),
   ws.cellv row (day_col + 1),
   ws.cellv row 3,
   ws.cellv row (column_map.checks + 1),
   CellValue.none,
   ws.cellv row (column_map.goods + 1),
   ws.cellv row 5,
   ws.cellv row (column_map.gift_cert + 1)]

/-- `excel_reader._extract_rows_xlsx` over `range(start_row, end_row+1)`. -/
def extract_rows_xlsx (ws : Ws) (start_row end_row : Nat)
    (column_map : ColumnMap) (date_col day_col : Nat) : List (List CellValue) :=
  (List.range' start_row (end_row + 1 - start_row)).map
    (fun r => build_row_xlsx ws r column_map date_col day_col)

/-- `excel_reader._build_header_rows`: every row above the data start. -/
def build_header_rows (data_start_row : Nat) : List Nat :=
  if data_start_row ≤ 1 then [] else List.range' 1 (data_start_row - 1)

/-- `excel_reader.ExcelData`: the extraction result record. -/
structure ExcelData where
  rows : List (List CellValue)
  header_row_index : Nat
  data_start_row : Nat
  data_end_row : Nat
  column_map : ColumnMap
  date_col : Nat
  day_col : Nat
  deriving DecidableEq, Repr

/-- `excel_reader._read_xlsx` on a single worksheet (workbook loading and
`_select_sheet_for_parsing_xlsx` abstracted to the given sheet): data-start
discovery, the «Чеки»-cell override (`+5`), the hard-coded Ахтубинск start,
keyword-column resolution, data-end trimming and row extraction, in the
source's order. -/
def read_xlsx (ws : Ws) (stem : String) : Except PyErr ExcelData := do
  let store := detect_store_from_path stem
  let (ds0, date_col, day_col) := find_data_start_row_xlsx ws
  let ds1 :=
    match find_checks_header_cell_xlsx ws with
    | .ok (r, _) => r + 5
    | .error _ => ds0
  let data_start_row := if store = some "Ахтубинск" then 7 else ds1
  let header_rows := build_header_rows data_start_row
  let header_row_index := header_rows.headD (HEADER_ROWS.headD 2)
  let column_map ← find_keyword_columns_xlsx ws
    (if header_rows.isEmpty then HEADER_ROWS else header_rows) store
  let data_end_row ← find_data_end_row_xlsx ws data_start_row
  let rows := extract_rows_xlsx ws data_start_row data_end_row column_map
    date_col day_col
  return { rows := rows, header_row_index := header_row_index,
           data_start_row := data_start_row, data_end_row := data_end_row,
           column_map := column_map, date_col := date_col, day_col := day_col }

/-- Scenario A of the spec (claim C2): 40×10 grid, "Дата" at row 2 col 1,
"Чеки" merged over columns 4-5 of row 2, data rows 3-33 fully populated. -/
def scenarioA : Ws :=
  { maxRow := 40, maxCol := 10,
    cellv := fun r c =>
      if r = 2 ∧ c = 1 then .str "Дата"
      else if r = 2 ∧ c = 4 then .str "Чеки"
      else if 3 ≤ r ∧ r ≤ 33 ∧ 1 ≤ c ∧ c ≤ 10 then
        (if c = 1 then .str "01.03.2025" else .num 5)
      else .none,
    merges := [⟨2, 2, 4, 5⟩] }

/-- A 3-row, all-empty worksheet (claim C5's failing input, together with an
"Ахтубинск" file name, which forces the data start to row 7 > 3). -/
def tinyWs : Ws :=
  { maxRow := 3, maxCol := 2, cellv := fun _ _ => .none, merges := [] }

/-- A worksheet with no header text anywhere (claim C6's witness grid). -/
def emptyWs : Ws :=
  { maxRow := 4, maxCol := 4, cellv := fun _ _ => .none, merges := [] }

/-- Claim C7's grid: «Чеки» sits at row 2 (above the detected data start,
row 5, within the first 26 columns) but not in the fixed header row 3. -/
def c7grid : Ws :=
  { maxRow := 10, maxCol := 8,
    cellv := fun r c =>
      if r = 4 ∧ c = 1 then .str "Дата"
      else if r = 2 ∧ c = 1 then .str "Чеки"
      else .none,
    merges := [] }

/-- A 50-row ledger `A:H` read with every row non-empty (witness data). -/
def ledger50 : List (List CellValue) := List.replicate 50 [CellValue.str "x"]

/-- Ten prepared data rows (witness data). -/
def tenRows : List (List CellValue) :=
  List.replicate 10 (List.replicate 8 CellValue.none)

/- ---------- processor.process_directory: the per-file loop ---------- -/

/-- `processor.FileContext`: resolved name, store and period of one file. -/
structure FileContextM where
  name : String
  store : String
  period : String
  deriving DecidableEq, Repr

/-- Outcome of `read_excel` for one file: data, an `ExcelReadError` (caught
at the per-file boundary), or any other exception (uncaught). -/
inductive ReadOutcome
  | ok (d : ExcelData)
  | readErr (msg : String)
  | crash
  deriving DecidableEq, Repr

/-- One input file of a run, with the outcomes of its external calls as
oracles: the `_build_context` result (`none` = `ValueError`, caught), the
`read_excel` outcome, and whether each group of remote calls succeeds —
`remotePreOk` covers `get_last_filled_row`/`insert_row`/`apply_green_fill`
(unwrapped: a failure is an uncaught exception), `summaryOk` covers
`update_summary_row` (its `HttpError` is caught and skips the file), and
`remotePostOk` covers `update_values` through `update_summary_sheet`
(unwrapped). -/
structure FileJob where
  name : String
  context : Option FileContextM
  read : ReadOutcome
  remotePreOk : Bool
  summaryOk : Bool
  remotePostOk : Bool
  deriving DecidableEq, Repr

/-- Observable events of a run: per-file error/warning logs, a progress
callback invocation, or an uncaught exception aborting the run. -/
inductive RunEvent
  | errLog (name : String)
  | warnLog (name : String)
  | progress (i total : Nat) (name : String)
  | crashed (name : String)
  deriving DecidableEq, Repr

/-- Is an event a progress-callback invocation? -/
def isProgress : RunEvent → Bool
  | .progress _ _ _ => true
  | _ => false

/-- The `for index, file_path in enumerate(files, start=1)` loop of
`processor.process_directory`: each branch mirrors one `continue`/abort path
of the source — context failure, read failure, no extracted rows, empty
prepared rows, dry run, missing МП worksheet, remote failures — and the
progress callback fires only at the very end of the fully successful path.
An uncaught exception ends the run. -/
def processLoop (infos : List SheetInfo) (dryRun : Bool) (total : Nat) :
    Nat → List FileJob → List RunEvent
  | _, [] => []
  | i, j :: rest =>
    let next := processLoop infos dryRun total (i + 1) rest
    match j.context with
    | Option.none => .errLog j.name :: next
    | some ctx =>
      match j.read with
      | .crash => [.crashed j.name]
      | .readErr _ => .errLog j.name :: next
      | .ok data =>
        if data.rows.isEmpty then .warnLog j.name :: next
        else
          match prepare_rows data.rows ctx.period with
          | .error _ => [.crashed j.name]
          | .ok rows_to_write =>
            if rows_to_write.isEmpty then .warnLog j.name :: next
            else if dryRun then next
            else
              match find_mp_sheet infos ctx.store with
              | Option.none => .errLog j.name :: next
              | some _ =>
                if !j.remotePreOk then [.crashed j.name]
                else if !j.summaryOk then .errLog j.name :: next
                else if !j.remotePostOk then [.crashed j.name]
                else .progress i total j.name :: next

/-- `processor.process_directory` restricted to its per-file loop, with
1-based file indices and `total = len(files)`. -/
def process_directory_model (infos : List SheetInfo) (dryRun : Bool)
    (jobs : List FileJob) : List RunEvent :=
  processLoop infos dryRun jobs.length 1 jobs

/-- Does this file's processing raise an uncaught exception? -/
def jobCrashes (infos : List SheetInfo) (dryRun : Bool) (j : FileJob) : Bool :=
  match j.context with
  | Option.none => false
  | some ctx =>
    match j.read with
    | .crash => true
    | .readErr _ => false
    | .ok data =>
      if data.rows.isEmpty then false
      else
        match prepare_rows data.rows ctx.period with
        | .error _ => true
        | .ok rows_to_write =>
          if rows_to_write.isEmpty then false
          else if dryRun then false
          else
            match find_mp_sheet infos ctx.store with
            | Option.none => false
            | some _ => !j.remotePreOk || (j.summaryOk && !j.remotePostOk)

/-- Does this file run the complete pipeline successfully? -/
def jobSucceeds (infos : List SheetInfo) (dryRun : Bool) (j : FileJob) : Bool :=
  match j.context with
  | Option.none => false
  | some ctx =>
    match j.read with
    | .crash => false
    | .readErr _ => false
    | .ok data =>
      if data.rows.isEmpty then false
      else
        match prepare_rows data.rows ctx.period with
        | .error _ => false
        | .ok rows_to_write =>
          if rows_to_write.isEmpty then false
          else if dryRun then false
          else
            match find_mp_sheet infos ctx.store with
            | Option.none => false
            | some _ => j.remotePreOk && j.summaryOk && j.remotePostOk

/-- One progress event per fully successful file, in order, carrying the
file's 1-based index, the total count and the file name. -/
def successEvents (infos : List SheetInfo) (dryRun : Bool) (total : Nat) :
    Nat → List FileJob → List RunEvent
  | _, [] => []
  | i, j :: rest =>
    if jobSucceeds infos dryRun j then
      .progress i total j.name :: successEvents infos dryRun total (i + 1) rest
    else successEvents infos dryRun total (i + 1) rest

/-- A file whose context resolution fails (C9's counterexample input). -/
def jobSkippedCtx : FileJob :=
  { name := "a.xlsx", context := Option.none, read := .readErr "x",
    remotePreOk := true, summaryOk := true, remotePostOk := true }

/-- Extraction data for a one-row file (loop-model witness data). -/
def okData : ExcelData :=
  { rows := [[.str "01.03.2025", .str "пн", .none, .num 5, .none, .num 3,
              .none, .num 1]],
    header_row_index := 2, data_start_row := 8, data_end_row := 8,
    column_map := ⟨3, 5, 7⟩, date_col := 0, day_col := 1 }

/-- A fully successful file (loop-model witness data). -/
def jobOk : FileJob :=
  { name := "Европа март 2025.xlsx",
    context := some { name := "Европа март 2025", store := "Европа",
                      period := "Март 2025" },
    read := .ok okData,
    remotePreOk := true, summaryOk := true, remotePostOk := true }

/-- The worksheet list of the loop-model witness. -/
def infosW : List SheetInfo := [⟨7, "МП Европа"⟩]

/-- The worksheet list of C8's counterexample: its only title contains "МП"
and the store keyword, but does not start with "МП". -/
def mpSheets : List SheetInfo := [⟨2, "Магазин МП Европа"⟩]

/-- Two worksheets that both start with "МП" and both match the store
keyword (claim C8's ordering witness data: the first must win). -/
def mpSheetsTwo : List SheetInfo :=
  [⟨1, "МП Европа"⟩, ⟨2, "МП Европа (склад)"⟩]

/-- Thirty-five extracted rows (claim C4's witness data). -/
def rows35 : List (List CellValue) :=
  List.replicate 35 [CellValue.str "x"]

/-- A single extracted 8-field row (claim C10's witness data). -/
def rowW : List CellValue :=
  [.str "01.03.2025", .str "пн", .none, .num 5, .none, .num 3, .none, .num 1]

end SvodMP

namespace SvodMP

/-- String concatenation is associative (helper for range equalities). -/
theorem str_append_assoc (a b c : String) : a ++ b ++ c = a ++ (b ++ c) := by
  rcases a with ⟨A⟩; rcases b with ⟨B⟩; rcases c with ⟨C⟩
  show String.mk ((A ++ B) ++ C) = String.mk (A ++ (B ++ C))
  rw [List.append_assoc]

/-- C1: with the ledger's last filled `A:H` row at 50 and 10 prepared rows for
period "Март 2025", the summary row lands at 51, its aggregate formulas range
over rows 52-61 (e.g. `=SUM(C52:C61)`), the data rows are written as values
into rows 52-61, and the ratio formula `=C{r}/D{r}` is written into column E
for every row r from 52 to 61. -/
theorem c1_ledger_block_placement
    (colValues : List (List CellValue)) (rows : List (List CellValue))
    (title : String)
    (hlast : get_last_filled_row colValues = 50)
    (hlen : rows.length = 10) :
    let p := ledger_plan colValues "Март 2025" rows title
    p.summary_row = 51 ∧ p.data_start = 52 ∧ p.data_end = 61 ∧
    p.summaryRange = "'" ++ title ++ "'!A51:H51" ∧
    p.summaryValues =
      ["Март", "", "=SUM(C52:C61)", "=SUM(D52:D61)", "=AVERAGE(E52:E61)",
       "=SUM(F52:F61)", "=SUM(G52:G61)", "=SUM(H52:H61)"] ∧
    p.valuesRange = "'" ++ title ++ "'!A52:H61" ∧
    p.valuesPayload = rows ∧
    p.formulasRange = "'" ++ title ++ "'!E52:E61" ∧
    p.formulasValues = (List.range' 52 10).map
      (fun r => ["=C" ++ toString r ++ "/D" ++ toString r]) := by
  simp only [ledger_plan, hlast, hlen]
  refine ⟨?_, ?_, ?_, ?_, ?_, ?_, ?_, ?_, ?_⟩ <;>
    first
      | trivial
      | (simp only [update_summary_row_range, update_values_range,
            update_formulas_range, hlen, str_append_assoc]
         congr 1)

/-- C1 witness: the theorem applied to a concrete 50-row ledger read and ten
concrete rows. -/
theorem c1_ledger_block_placement_witness :
    (ledger_plan ledger50 "Март 2025" tenRows "МП Европа").summary_row = 51 ∧
    (ledger_plan ledger50 "Март 2025" tenRows "МП Европа").summaryValues =
      ["Март", "", "=SUM(C52:C61)", "=SUM(D52:D61)", "=AVERAGE(E52:E61)",
       "=SUM(F52:F61)", "=SUM(G52:G61)", "=SUM(H52:H61)"] := by
  have h := c1_ledger_block_placement ledger50 tenRows "МП Европа"
    (by decide) (by decide)
  exact ⟨h.1, h.2.2.2.2.1⟩

/-- An `Except` that is not ok is a concrete error (helper). -/
theorem exceptOk_false {ε α : Type} {e : Except ε α}
    (h : exceptOk e = false) : ∃ msg, e = .error msg := by
  cases e with
  | ok a => simp [exceptOk] at h
  | error msg => exact ⟨msg, rfl⟩

/-- C2 counterexample: on scenario A's grid (header "Дата" at row 2 col 1,
"Чеки" merged over columns 4-5 of row 2, data rows 3-33 populated) the
reader does not yield 31 data rows with checks at column 4 — it fails
outright, because metric keyword search only inspects header row 3 and the
unrecognized store has no fallback entry. -/
theorem c2_counterexample :
    exceptOk (read_xlsx scenarioA "Отчет март 2025") = false ∧
    scenarioA.cellv 2 1 = .str "Дата" ∧
    scenarioA.cellv 2 4 = .str "Чеки" ∧
    scenarioA.merges = [⟨2, 2, 4, 5⟩] := by
  refine ⟨by decide, by decide, by decide, rfl⟩

/-- C2 amended: reading scenario A's file fails with the `ExcelReadError`
naming «Чеки»: the «Чеки» merge at row 2 moves the data start to row 7
(checks-header row + 5), but `_find_header_column_xlsx` looks only at merges
anchored at row 3 and at the cells of row 3, and
`_get_store_fallback_column` has no entry for an unrecognized store. -/
theorem c2_amended_read_fails :
    read_xlsx scenarioA "Отчет март 2025" =
      .error (.excelRead "Не найдена колонка «Чеки» в заголовке файла.") := by
  rfl

/-- C5: on a 3-row all-empty worksheet from a file named for the store
"Ахтубинск" (data start forced to row 7, beyond the last physical row), the
extractor does not return an empty row sequence: `_trim_trailing_empty_rows`
evaluates `rows[0]` on an empty row range and raises an uncaught
`IndexError`. -/
theorem c5_trim_raises_indexerror :
    read_xlsx tinyWs "Ахтубинск январь 2025" = .error .indexError ∧
    find_data_end_row_xlsx tinyWs 7 = .error .indexError := by
  exact ⟨rfl, rfl⟩

/-- C6: when keyword search fails for a metric, the locator consults the
static per-store fallback table before declaring failure: (i) with every
keyword search failing and store "Ахтубинск", all three metric columns
resolve to the fallback entries 16, 19, 38; (ii) a metric resolution fails
exactly when both the keyword search and the fallback lookup fail; (iii) a
fallback failure carries an error message naming the unresolved metric. -/
theorem c6_store_fallback_table :
    (∀ (ws : Ws) (hr : List Nat),
       (∀ k, exceptOk (find_header_column_xlsx ws k) = false) →
       find_keyword_columns_xlsx ws hr (some "Ахтубинск") =
         .ok ⟨16, 19, 38⟩) ∧
    (∀ (ws : Ws) (store : Option String) (k : MetricKey),
       exceptOk (resolve_metric_column ws store k) = false ↔
         (exceptOk (find_header_column_xlsx ws k) = false ∧
          exceptOk (get_store_fallback_column store k) = false)) ∧
    (∀ (store : Option String) (k : MetricKey) (msg : String),
       get_store_fallback_column store k = .error (.excelRead msg) →
       hasSub msg.data (KEYWORDS k).data = true) := by
  refine ⟨?_, ?_, ?_⟩
  · intro ws hr h
    obtain ⟨e1, h1⟩ := exceptOk_false (h .checks)
    obtain ⟨e2, h2⟩ := exceptOk_false (h .goods)
    obtain ⟨e3, h3⟩ := exceptOk_false (h .gift_cert)
    simp [find_keyword_columns_xlsx, resolve_metric_column, h1, h2, h3,
      get_store_fallback_column]
    rfl
  · intro ws store k
    unfold resolve_metric_column
    cases h : find_header_column_xlsx ws k with
    | ok c => simp [exceptOk, h]
    | error e => simp [exceptOk, h]
  · intro store k msg h
    unfold get_store_fallback_column at h
    split_ifs at h <;>
      simp only [Except.error.injEq, PyErr.excelRead.injEq] at h <;>
      subst h <;> cases k <;> decide

/-- C6 witness: the fallback clause of the theorem applied to a grid with no
header text at all and store "Ахтубинск". -/
theorem c6_store_fallback_table_witness :
    find_keyword_columns_xlsx emptyWs [2, 3, 4, 5] (some "Ахтубинск") =
      .ok ⟨16, 19, 38⟩ :=
  c6_store_fallback_table.1 emptyWs [2, 3, 4, 5] (fun k => by cases k <;> decide)

/-- C7 counterexample: on `c7grid` the keyword «Чеки» sits at row 2 — above
the detected data-start row 5 and within the first 26 columns — yet
`_find_header_column_xlsx` still fails: no widened multi-row scan happens
for metric keywords. -/
theorem c7_counterexample :
    exceptOk (find_header_column_xlsx c7grid .checks) = false ∧
    is_header_value (c7grid.cellv 2 1) .checks = true ∧
    find_data_start_row_xlsx c7grid = (5, 0, 1) := by
  refine ⟨by decide, by decide, by decide⟩

/-- C7 amended: metric keyword search inspects only the fixed header row 3 —
merges anchored there and the row's first `max_column` cells; if neither
matches, the search fails immediately (regardless of keyword cells in any
other row above the data start). -/
theorem c7_metric_search_limited_to_row3
    (ws : Ws) (k : MetricKey)
    (hm : ∀ m ∈ ws.merges, m.minRow = 3 →
      is_header_value (ws.cellv 3 m.minCol) k = false)
    (hc : ∀ c, 1 ≤ c → c ≤ ws.maxCol →
      is_header_value (ws.cellv 3 c) k = false) :
    find_header_column_xlsx ws k =
      .error (.excelRead ("Не найдена колонка «" ++ KEYWORDS k
        ++ "» в заголовке файла.")) := by
  unfold find_header_column_xlsx find_header_column_in_merged_xlsx
  have h1 : ws.merges.find? (fun m =>
      m.minRow == 3 && is_header_value (ws.cellv m.minRow m.minCol) k) =
      Option.none := by
    apply List.find?_eq_none.mpr
    intro m hmem
    by_cases h3 : m.minRow = 3
    · simp [h3, hm m hmem h3]
    · simp [h3]
  have h2 : (List.range' 1 ws.maxCol).find? (fun c =>
      is_header_value (ws.cellv 3 c) k) = Option.none := by
    apply List.find?_eq_none.mpr
    intro c hmem
    rw [List.mem_range'] at hmem
    obtain ⟨i, hi, hci⟩ := hmem
    have hb1 : 1 ≤ c := by omega
    have hb2 : c ≤ ws.maxCol := by omega
    simp [hc c hb1 hb2]
  simp [h1, h2]

/-- C7 witness: the amended theorem applied to `c7grid` and «Чеки». -/
theorem c7_metric_search_limited_to_row3_witness :
    find_header_column_xlsx c7grid .checks =
      .error (.excelRead ("Не найдена колонка «" ++ KEYWORDS .checks
        ++ "» в заголовке файла.")) :=
  c7_metric_search_limited_to_row3 c7grid .checks
    (by simp [c7grid])
    (fun c h1 h2 => by
      have h8 : c ≤ 8 := h2
      interval_cases c <;> decide)

/-- `dropWhile` is the identity when no element satisfies the predicate. -/
theorem dropWhile_eq_self_of_none {p : Char → Bool} :
    ∀ {cs : List Char}, (∀ c ∈ cs, p c = false) → cs.dropWhile p = cs := by
  intro cs h
  cases cs with
  | nil => rfl
  | cons x xs => simp [List.dropWhile_cons, h x (by simp)]

/-- `str.strip()` is the identity on whitespace-free strings. -/
theorem pyStripL_eq_self {cs : List Char} (h : ∀ c ∈ cs, isPySpace c = false) :
    pyStripL cs = cs := by
  unfold pyStripL
  rw [dropWhile_eq_self_of_none h,
    dropWhile_eq_self_of_none (fun c hc => h c (List.mem_reverse.mp hc)),
    List.reverse_reverse]

/-- The character-class facts of a decimal digit character. -/
theorem dchar_facts {n : Nat} (h : n < 10) :
    (dchar n).isDigit = true ∧ isPySpace (dchar n) = false ∧
    dchar n ≠ '.' ∧ dchar n ≠ ',' ∧ dchar n ≠ '+' ∧ dchar n ≠ '-' ∧
    dchar n ≠ 'e' ∧ dchar n ≠ 'E' ∧ charVal (dchar n) = n := by
  interval_cases n <;> exact (by decide)

/-- `_format_date_value` is the identity on every `DD.MM.YYYY`-shaped
string (both when the date parses and when, e.g. 31.02, it does not). -/
theorem format_ddmmyyyy_self (a b c d e f g h : Nat)
    (ha : a < 10) (hb : b < 10) (hc : c < 10) (hd : d < 10)
    (he : e < 10) (hf : f < 10) (hg : g < 10) (hh : h < 10) :
    format_date_value (.str (ddmmyyyy a b c d e f g h)) =
      some (ddmmyyyy a b c d e f g h) := by
  obtain ⟨a1, a2, a3, a4, a5, a6, a7, a8, a9⟩ := dchar_facts ha
  obtain ⟨b1, b2, b3, b4, b5, b6, b7, b8, b9⟩ := dchar_facts hb
  obtain ⟨c1, c2, c3, c4, c5, c6, c7, c8, c9⟩ := dchar_facts hc
  obtain ⟨d1, d2, d3, d4, d5, d6, d7, d8, d9⟩ := dchar_facts hd
  obtain ⟨e1, e2, e3, e4, e5, e6, e7, e8, e9⟩ := dchar_facts he
  obtain ⟨f1, f2, f3, f4, f5, f6, f7, f8, f9⟩ := dchar_facts hf
  obtain ⟨g1, g2, g3, g4, g5, g6, g7, g8, g9⟩ := dchar_facts hg
  obtain ⟨i1, i2, i3, i4, i5, i6, i7, i8, i9⟩ := dchar_facts hh
  have hall : ∀ x ∈ [dchar a, dchar b, '.', dchar c, dchar d, '.',
      dchar e, dchar f, dchar g, dchar h], isPySpace x = false := by
    intro x hx
    simp only [List.mem_cons, List.not_mem_nil, or_false] at hx
    rcases hx with rfl | rfl | rfl | rfl | rfl | rfl | rfl | rfl | rfl | rfl <;>
      first | assumption | decide
  have hstrip := pyStripL_eq_self hall
  have hcomma : commaToDot [dchar a, dchar b, '.', dchar c, dchar d, '.',
      dchar e, dchar f, dchar g, dchar h] =
      [dchar a, dchar b, '.', dchar c, dchar d, '.',
       dchar e, dchar f, dchar g, dchar h] := by
    simp [commaToDot, a4, b4, c4, d4, e4, f4, g4, i4]
  have hfloat : pyFloatFloor [dchar a, dchar b, '.', dchar c, dchar d, '.',
      dchar e, dchar f, dchar g, dchar h] = Option.none := by
    simp [pyFloatFloor, signOf, digitRun, expoParse,
      a1, b1, c1, d1, e1, f1, g1, i1, a5, a6]
  have hnum : is_number [dchar a, dchar b, '.', dchar c, dchar d, '.',
      dchar e, dchar f, dchar g, dchar h] = false := by
    simp [is_number, hcomma, hfloat]
  have h4eq : strptimeDmY4 [dchar a, dchar b, '.', dchar c, dchar d, '.',
      dchar e, dchar f, dchar g, dchar h] =
      strptimeCheck [dchar a, dchar b] [dchar c, dchar d]
        [dchar e, dchar f, dchar g, dchar h] true := by
    simp [strptimeDmY4]
  have h2eq : strptimeDmY2 [dchar a, dchar b, '.', dchar c, dchar d, '.',
      dchar e, dchar f, dchar g, dchar h] = Option.none := by
    simp [strptimeDmY2]
  have hdigitsAll : (([dchar a, dchar b] ++ [dchar c, dchar d] ++
      [dchar e, dchar f, dchar g, dchar h]).all Char.isDigit) = true := by
    simp [a1, b1, c1, d1, e1, f1, g1, i1]
  have hdv : digitsToNat [dchar a, dchar b] = 10 * a + b := by
    simp [digitsToNat, a9, b9]; omega
  have hmv : digitsToNat [dchar c, dchar d] = 10 * c + d := by
    simp [digitsToNat, c9, d9]; omega
  have hyv : digitsToNat [dchar e, dchar f, dchar g, dchar h] =
      1000 * e + 100 * f + 10 * g + h := by
    simp [digitsToNat, e9, f9, g9, i9]; omega
  have hcheck : strptimeCheck [dchar a, dchar b] [dchar c, dchar d]
      [dchar e, dchar f, dchar g, dchar h] true =
      if 1 ≤ 10 * a + b ∧ 1 ≤ 10 * c + d ∧ 10 * c + d ≤ 12 ∧
          1 ≤ 1000 * e + 100 * f + 10 * g + h ∧
          1000 * e + 100 * f + 10 * g + h ≤ 9999 ∧
          10 * a + b ≤ daysInMonth ((1000 * e + 100 * f + 10 * g + h : Nat) : Int)
            (10 * c + d) then
        some (10 * a + b, 10 * c + d, 1000 * e + 100 * f + 10 * g + h)
      else Option.none := by
    simp only [strptimeCheck, hdigitsAll, hdv, hmv, hyv, if_true]
  simp only [format_date_value, ddmmyyyy]
  rw [hstrip]
  simp only [List.isEmpty_cons, hnum, h4eq, hcheck, h2eq, Bool.false_eq_true,
    if_false]
  by_cases hval : 1 ≤ 10 * a + b ∧ 1 ≤ 10 * c + d ∧ 10 * c + d ≤ 12 ∧
      1 ≤ 1000 * e + 100 * f + 10 * g + h ∧
      1000 * e + 100 * f + 10 * g + h ≤ 9999 ∧
      10 * a + b ≤ daysInMonth ((1000 * e + 100 * f + 10 * g + h : Nat) : Int)
        (10 * c + d)
  · rw [if_pos hval]
    have p2d : pad2 (10 * a + b) = [dchar a, dchar b] := by
      simp only [pad2]
      rw [show (10 * a + b) / 10 = a by omega, show (10 * a + b) % 10 = b by omega]
    have p2m : pad2 (10 * c + d) = [dchar c, dchar d] := by
      simp only [pad2]
      rw [show (10 * c + d) / 10 = c by omega, show (10 * c + d) % 10 = d by omega]
    have p4y : pad4 (1000 * e + 100 * f + 10 * g + h) =
        [dchar e, dchar f, dchar g, dchar h] := by
      simp only [pad4]
      rw [show (1000 * e + 100 * f + 10 * g + h) / 1000 = e by omega,
        show (1000 * e + 100 * f + 10 * g + h) / 100 % 10 = f by omega,
        show (1000 * e + 100 * f + 10 * g + h) / 10 % 10 = g by omega,
        show (1000 * e + 100 * f + 10 * g + h) % 10 = h by omega]
    simp [fmtDMY, p2d, p2m, p4y]
  · rw [if_neg hval]

/-- C3: date normalization is idempotent on `DD.MM.YYYY` text (every
8-digit `DD.MM.YYYY`-shaped string is returned unchanged), spreadsheet
serial 1 normalizes to `31.12.1899`, and serial 45658 normalizes to
`01.01.2025` — the 2025 date the 1899-12-30 epoch assigns to that serial. -/
theorem c3_date_normalization :
    (∀ a b c d e f g h : Nat, a < 10 → b < 10 → c < 10 → d < 10 → e < 10 →
      f < 10 → g < 10 → h < 10 →
      format_date_value (.str (ddmmyyyy a b c d e f g h)) =
        some (ddmmyyyy a b c d e f g h)) ∧
    format_date_value (.num 1) = some "31.12.1899" ∧
    format_date_value (.num 45658) = some "01.01.2025" ∧
    civilFromDays (serialEpoch + 45658) = (2025, 1, 1) := by
  refine ⟨?_, by decide, by decide, by decide⟩
  intro a b c d e f g h ha hb hc hd he hf hg hh
  exact format_ddmmyyyy_self a b c d e f g h ha hb hc hd he hf hg hh

/-- C3 witness: idempotence applied to the concrete string `15.06.2024`. -/
theorem c3_date_normalization_witness :
    format_date_value (.str "15.06.2024") = some "15.06.2024" := by
  have h := c3_date_normalization.1 1 5 0 6 2 0 2 4 (by decide) (by decide)
    (by decide) (by decide) (by decide) (by decide) (by decide) (by decide)
  have e : ddmmyyyy 1 5 0 6 2 0 2 4 = "15.06.2024" := by decide
  rw [e] at h
  exact h

/-- On non-empty rows, the `_prepare_rows` loop keeps the first `cap` rows,
applying the per-row date formatting (helper). -/
theorem prepare_loop_eq : ∀ (rows : List (List CellValue)) (cap : Nat),
    (∀ r ∈ rows, r ≠ []) →
    prepare_loop cap rows = .ok ((rows.take cap).map prep_row) := by
  intro rows
  induction rows with
  | nil =>
    intro cap _
    cases cap <;> rfl
  | cons r rs ih =>
    intro cap h
    cases cap with
    | zero => rfl
    | succ n =>
      cases hr : r with
      | nil => exact absurd hr (h r (by simp))
      | cons v rest =>
        subst hr
        simp [prepare_loop, prepare_one, prep_row, bind, Except.bind,
          Functor.map, Except.map, pure, Except.pure,
          ih n (fun x hx => h x (by simp [hx]))]

/-- C4: row preparation keeps exactly `min(days_in_month(period), len(rows))`
rows — the first that many, in their original order (each with only its date
field formatted) — and for period "Февраль 2024" the cap is 29 days. -/
theorem c4_days_in_month_caps :
    (∀ (rows : List (List CellValue)) (period : String) (y : Int) (m : Nat),
      parse_period period = .ok (y, m) →
      (∀ r ∈ rows, r ≠ []) →
      ∃ l, prepare_rows rows period = .ok l ∧
        l = (rows.take (daysInMonth y m)).map prep_row ∧
        l.length = min (daysInMonth y m) rows.length) ∧
    parse_period "Февраль 2024" = .ok (2024, 2) ∧
    daysInMonth 2024 2 = 29 := by
  refine ⟨?_, by decide, by decide⟩
  intro rows period y m hp hne
  refine ⟨(rows.take (daysInMonth y m)).map prep_row, ?_, rfl, ?_⟩
  · simp [prepare_rows, hp, prepare_loop_eq rows (daysInMonth y m) hne]
  · simp [List.length_take]

/-- C4 witness: for period "Февраль 2024" and 35 extracted rows, exactly the
first 29 are kept. -/
theorem c4_days_in_month_caps_witness :
    (∃ l, prepare_rows rows35 "Февраль 2024" = .ok l ∧
      l = (rows35.take (daysInMonth 2024 2)).map prep_row ∧
      l.length = min (daysInMonth 2024 2) rows35.length) ∧
    min (daysInMonth 2024 2) rows35.length = 29 := by
  refine ⟨c4_days_in_month_caps.1 rows35 "Февраль 2024" 2024 2 (by decide) ?_,
    by decide⟩
  intro r hr
  simp [rows35] at hr
  simp [hr]

/-- Each row kept by a successful `_prepare_rows` call is its input row with
only field 0 replaced (helper). -/
theorem prepare_loop_fields : ∀ (rows : List (List CellValue)) (cap : Nat)
    (l : List (List CellValue)), prepare_loop cap rows = .ok l →
    ∀ j (hj : j < l.length), ∃ (hr : j < rows.length) (v : CellValue)
      (rest : List CellValue), rows.get ⟨j, hr⟩ = v :: rest ∧
      l.get ⟨j, hj⟩ = format_cell v :: rest := by
  intro rows
  induction rows with
  | nil =>
    intro cap l h j hj
    cases cap <;> simp [prepare_loop] at h <;> subst h <;>
      exact absurd hj (by simp)
  | cons r rs ih =>
    intro cap l h j hj
    cases cap with
    | zero =>
      simp [prepare_loop] at h
      subst h
      exact absurd hj (by simp)
    | succ n =>
      cases r with
      | nil =>
        simp [prepare_loop, prepare_one, bind, Except.bind, Functor.map,
          Except.map, pure, Except.pure] at h
      | cons v rest =>
        simp only [prepare_loop, prepare_one, bind, Except.bind, Functor.map,
          Except.map, pure, Except.pure] at h
        cases hrec : prepare_loop n rs with
        | error e => rw [hrec] at h; simp at h
        | ok l' =>
          rw [hrec] at h
          simp at h
          subst h
          cases j with
          | zero => exact ⟨by simp, v, rest, rfl, rfl⟩
          | succ jj =>
            have hj' : jj < l'.length := by simpa using hj
            obtain ⟨hr, v', rest', h1, h2⟩ := ih n l' hrec jj hj'
            refine ⟨by simpa using Nat.succ_lt_succ hr, v', rest', ?_, ?_⟩
            · simpa using h1
            · simpa using h2

/-- C10: every row kept by row preparation equals the corresponding input
row with only field 0 replaced by its normalized text form — fields 1-7 are
the input row's own tail, untouched (the source copies each row before the
assignment, so inputs are never mutated; the embedding is pure). -/
theorem c10_prepare_rows_frame :
    ∀ (rows : List (List CellValue)) (period : String)
      (l : List (List CellValue)), prepare_rows rows period = .ok l →
    ∀ j (hj : j < l.length), ∃ (hr : j < rows.length) (v : CellValue)
      (rest : List CellValue), rows.get ⟨j, hr⟩ = v :: rest ∧
      l.get ⟨j, hj⟩ = format_cell v :: rest := by
  intro rows period l h
  unfold prepare_rows at h
  cases hp : parse_period period with
  | error e => rw [hp] at h; simp at h
  | ok ym =>
    obtain ⟨y, m⟩ := ym
    rw [hp] at h
    exact prepare_loop_fields rows (daysInMonth y m) l h

/-- C10 witness: the frame property applied to a concrete 8-field row whose
prepared form equals itself (its date is already normalized). -/
theorem c10_prepare_rows_frame_witness :
    ∃ (hr : 0 < ([rowW] : List (List CellValue)).length) (v : CellValue)
      (rest : List CellValue),
      ([rowW] : List (List CellValue)).get ⟨0, hr⟩ = v :: rest ∧
      ([rowW] : List (List CellValue)).get ⟨0, by decide⟩ =
        format_cell v :: rest :=
  c10_prepare_rows_frame [rowW] "Март 2025" [rowW] (by decide) 0 (by decide)

/-- C8 counterexample: a worksheet whose title contains "МП" and the store's
keyword is still not selected, because the source requires the lowercased,
stripped title to start with "мп", not merely to contain it. -/
theorem c8_counterexample :
    find_mp_sheet mpSheets "Европа" = Option.none ∧
    hasSub ("Магазин МП Европа").data ("МП").data = true ∧
    hasSub (toLowerRuL ("Магазин МП Европа").data) (toLowerRu "Европа").data
      = true := by
  refine ⟨by decide, by decide, by decide⟩

/-- `find?` over a filtered list is `find?` with the conjoined predicate
(helper). -/
theorem find?_filter_eq {α : Type} (l : List α) (p q : α → Bool) :
    (l.filter p).find? q = l.find? (fun x => p x && q x) := by
  induction l with
  | nil => rfl
  | cons x xs ih =>
    by_cases hp : p x = true
    · by_cases hq : q x = true
      · rw [List.filter_cons_of_pos hp,
          List.find?_cons_of_pos _ hq,
          List.find?_cons_of_pos _ (by simp [hp, hq])]
      · rw [List.filter_cons_of_pos hp,
          List.find?_cons_of_neg _ hq,
          List.find?_cons_of_neg _ (by simp [hq]), ih]
    · rw [List.filter_cons_of_neg (by simpa using hp),
        List.find?_cons_of_neg _ (by simp [hp]), ih]

/-- A successful `find?` splits the list at the first satisfying element:
everything before it fails the predicate (helper). -/
theorem find?_eq_some_first {α : Type} : ∀ (l : List α) (p : α → Bool) (b : α),
    l.find? p = some b →
    ∃ pre post, l = pre ++ b :: post ∧ p b = true ∧
      ∀ x ∈ pre, p x = false := by
  intro l
  induction l with
  | nil => intro p b h; simp [List.find?] at h
  | cons x xs ih =>
    intro p b h
    by_cases hp : p x = true
    · rw [List.find?_cons_of_pos _ hp] at h
      obtain rfl : x = b := by injection h
      exact ⟨[], xs, rfl, hp, by simp⟩
    · rw [List.find?_cons_of_neg _ hp] at h
      obtain ⟨pre, post, hl, hb, hpre⟩ := ih p b h
      refine ⟨x :: pre, post, by simp [hl], hb, ?_⟩
      intro y hy
      rcases List.mem_cons.mp hy with rfl | hy'
      · simpa using hp
      · exact hpre y hy'

/-- C8 amended: the target worksheet is the first whose lowercased, stripped
title starts with "мп" and whose lowercased title contains a store keyword:
a selected sheet satisfies both conditions and no worksheet before it in the
list satisfies both; when none is selected, no worksheet satisfies both; and
a file whose store has no matching worksheet is skipped with an error log
while processing continues with the next file. -/
theorem c8_mp_sheet_selection :
    (∀ (infos : List SheetInfo) (store : String) (info : SheetInfo),
      find_mp_sheet infos store = some info →
      ∃ pre post, infos = pre ++ info :: post ∧
        mp_candidate info = true ∧
        title_matches_store (toLowerRu store) info = true ∧
        ∀ x ∈ pre, ¬(mp_candidate x = true ∧
          title_matches_store (toLowerRu store) x = true)) ∧
    (∀ (infos : List SheetInfo) (store : String),
      find_mp_sheet infos store = Option.none →
      ∀ info ∈ infos, mp_candidate info = true →
        title_matches_store (toLowerRu store) info = false) ∧
    (∀ (infos : List SheetInfo) (total i : Nat) (rest : List FileJob)
      (j : FileJob) (ctx : FileContextM) (data : ExcelData)
      (rows_to_write : List (List CellValue)),
      j.context = some ctx → j.read = .ok data → data.rows.isEmpty = false →
      prepare_rows data.rows ctx.period = .ok rows_to_write →
      rows_to_write.isEmpty = false →
      find_mp_sheet infos ctx.store = Option.none →
      processLoop infos false total i (j :: rest) =
        .errLog j.name :: processLoop infos false total (i + 1) rest) := by
  refine ⟨?_, ?_, ?_⟩
  · intro infos store info h
    unfold find_mp_sheet at h
    rw [find?_filter_eq] at h
    obtain ⟨pre, post, hl, hb, hpre⟩ := find?_eq_some_first _ _ _ h
    rw [Bool.and_eq_true] at hb
    refine ⟨pre, post, hl, hb.1, hb.2, ?_⟩
    intro x hx hcontra
    have hfalse := hpre x hx
    rw [hcontra.1, hcontra.2] at hfalse
    exact Bool.noConfusion hfalse
  · intro infos store h info hmem hcand
    unfold find_mp_sheet at h
    have := List.find?_eq_none.mp h info (List.mem_filter.mpr ⟨hmem, hcand⟩)
    simpa using this
  · intro infos total i rest j ctx data rows_to_write hctx hread hrows hprep
      hrtw hmp
    simp [processLoop, hctx, hread, hrows, hprep, hrtw, hmp]

/-- C8 witness: with two worksheets both "МП"-led and both matching the
store keyword, the selected sheet is the first — it splits the list with no
matching candidate before it. -/
theorem c8_mp_sheet_selection_witness :
    ∃ pre post, mpSheetsTwo = pre ++ (⟨1, "МП Европа"⟩ : SheetInfo) :: post ∧
      mp_candidate ⟨1, "МП Европа"⟩ = true ∧
      title_matches_store (toLowerRu "Европа") ⟨1, "МП Европа"⟩ = true ∧
      ∀ x ∈ pre, ¬(mp_candidate x = true ∧
        title_matches_store (toLowerRu "Европа") x = true) :=
  c8_mp_sheet_selection.1 mpSheetsTwo "Европа" ⟨1, "МП Европа"⟩ (by decide)

/-- The progress events of the per-file loop are exactly one event per fully
successful file, in order (helper, crash-free runs). -/
theorem processLoop_filter_progress (infos : List SheetInfo) (dryRun : Bool)
    (total : Nat) : ∀ (jobs : List FileJob) (i : Nat),
    (∀ j ∈ jobs, jobCrashes infos dryRun j = false) →
    (processLoop infos dryRun total i jobs).filter isProgress =
      successEvents infos dryRun total i jobs := by
  intro jobs
  induction jobs with
  | nil => intro i _; rfl
  | cons j rest ih =>
    intro i h
    have hj : jobCrashes infos dryRun j = false := h j (by simp)
    have ihr := ih (i + 1) (fun x hx => h x (by simp [hx]))
    cases hctx : j.context with
    | none =>
      simp [processLoop, successEvents, jobSucceeds, hctx, isProgress, ihr]
    | some ctx =>
      cases hread : j.read with
      | crash =>
        exfalso
        have hcr : jobCrashes infos dryRun j = true := by
          simp [jobCrashes, hctx, hread]
        rw [hcr] at hj
        exact Bool.noConfusion hj
      | readErr m =>
        simp [processLoop, successEvents, jobSucceeds, hctx, hread,
          isProgress, ihr]
      | ok data =>
        cases hrows : data.rows.isEmpty with
        | true =>
          simp [processLoop, successEvents, jobSucceeds, hctx, hread, hrows,
            isProgress, ihr]
        | false =>
          cases hprep : prepare_rows data.rows ctx.period with
          | error e =>
            exfalso
            have hcr : jobCrashes infos dryRun j = true := by
              simp [jobCrashes, hctx, hread, hrows, hprep]
            rw [hcr] at hj
            exact Bool.noConfusion hj
          | ok rtw =>
            cases hrtw : rtw.isEmpty with
            | true =>
              simp [processLoop, successEvents, jobSucceeds, hctx, hread,
                hrows, hprep, hrtw, isProgress, ihr]
            | false =>
              cases hdry : dryRun with
              | true =>
                rw [hdry] at ihr
                simp [processLoop, successEvents, jobSucceeds, hctx, hread,
                  hrows, hprep, hrtw, hdry, isProgress, ihr]
              | false =>
                rw [hdry] at ihr
                cases hmp : find_mp_sheet infos ctx.store with
                | none =>
                  simp [processLoop, successEvents, jobSucceeds, hctx, hread,
                    hrows, hprep, hrtw, hdry, hmp, isProgress, ihr]
                | some info =>
                  cases hpre : j.remotePreOk with
                  | false =>
                    exfalso
                    have hcr : jobCrashes infos dryRun j = true := by
                      simp [jobCrashes, hctx, hread, hrows, hprep, hrtw,
                        hdry, hmp, hpre]
                    rw [hcr] at hj
                    exact Bool.noConfusion hj
                  | true =>
                    cases hsum : j.summaryOk with
                    | false =>
                      simp [processLoop, successEvents, jobSucceeds, hctx,
                        hread, hrows, hprep, hrtw, hdry, hmp, hpre, hsum,
                        isProgress, ihr]
                    | true =>
                      cases hpost : j.remotePostOk with
                      | false =>
                        exfalso
                        have hcr : jobCrashes infos dryRun j = true := by
                          simp [jobCrashes, hctx, hread, hrows, hprep, hrtw,
                            hdry, hmp, hpre, hsum, hpost]
                        rw [hcr] at hj
                        exact Bool.noConfusion hj
                      | true =>
                        simp [processLoop, successEvents, jobSucceeds, hctx,
                          hread, hrows, hprep, hrtw, hdry, hmp, hpre, hsum,
                          hpost, isProgress, ihr]

/-- C9 amended: in a run with no uncaught exceptions, the progress callback
fires exactly once per file that completes the entire pipeline successfully
— in order, with that file's 1-based index, the total file count and the
file name; files skipped with an error, files with nothing to write, and
dry-run files trigger no callback. -/
theorem c9_progress_only_on_success :
    ∀ (infos : List SheetInfo) (dryRun : Bool) (jobs : List FileJob),
    (∀ j ∈ jobs, jobCrashes infos dryRun j = false) →
    (process_directory_model infos dryRun jobs).filter isProgress =
      successEvents infos dryRun jobs.length 1 jobs := by
  intro infos dryRun jobs h
  exact processLoop_filter_progress infos dryRun jobs.length jobs 1 h

/-- C9 counterexample: a run with one file that is definitively skipped with
an error (context resolution fails) invokes the progress callback zero
times, not once as the claim requires for skipped files. -/
theorem c9_counterexample :
    process_directory_model [] false [jobSkippedCtx] =
      [.errLog "a.xlsx"] ∧
    (process_directory_model [] false [jobSkippedCtx]).filter isProgress
      = [] := by
  refine ⟨by decide, by decide⟩

/-- C9 witness: a crash-free run with one fully successful file yields
exactly one progress event `(1, 1, filename)`. -/
theorem c9_progress_only_on_success_witness :
    (process_directory_model infosW false [jobOk]).filter isProgress =
      successEvents infosW false 1 1 [jobOk] ∧
    successEvents infosW false 1 1 [jobOk] =
      [.progress 1 1 "Европа март 2025.xlsx"] := by
  refine ⟨c9_progress_only_on_success infosW false [jobOk] ?_, by decide⟩
  intro j hj
  simp at hj
  subst hj
  decide

end SvodMP
